import Mathlib

set_option maxRecDepth 100000

/-!
Shallow embedding of `src/main.rs` of the `rslvconf` repository
(the `cfg-adguard-dns` CLI tool).

The program resolves a target file path from an environment variable
(default `/etc/resolvconf/resolv.conf.d/head`), unconditionally
creates/truncates that file, then dispatches on the first CLI argument:
`--help`, `--activate`/`activate`, `--deactivate`/`deactivate`,
`--status`/`status`, or an unknown-argument error path.

The external world (environment, filesystem creation success, process
spawn success, `nslookup` stdout) is modelled by an explicit `World`
record; a run is a pure function from the prior file content, the world
and the argument list to a `RunResult` describing the outcome, the file
content afterwards, the produced stdout/stderr, and the external
commands invoked.
-/

namespace Rslvconf

/-- Constant `RESOLVCONF_HEAD_ENV_VAR` from `main.rs`. -/
def RESOLVCONF_HEAD_ENV_VAR : String := "RESOLVCONF_HEAD_PATH"

/-- Constant `RESOLVCONF_HEAD_DEFAULT_PATH` from `main.rs`. -/
def RESOLVCONF_HEAD_DEFAULT_PATH : String := "/etc/resolvconf/resolv.conf.d/head"

/-- Constant `DEFAULT_TEMPLATE` from `main.rs` (the base template), byte-for-byte. -/
def DEFAULT_TEMPLATE : String :=
  "\n# Dynamic resolv.conf(5) file for glibc resolver(3) generated by resolvconf(8)\n#     DO NOT EDIT THIS FILE BY HAND -- YOUR CHANGES WILL BE OVERWRITTEN\n# 127.0.0.53 is the systemd-resolved stub resolver.\n# run \"systemd-resolve --status\" to see details about the actual nameservers.\n"

/-- Constant `DNS_SERVER_1_ADDR` from `main.rs`. -/
def DNS_SERVER_1_ADDR : String := "94.140.14.14"

/-- Constant `DNS_SERVER_2_ADDR` from `main.rs`. -/
def DNS_SERVER_2_ADDR : String := "94.149.15.15"

/-- Constant `ADGUARD_DNS_SERVER_CONFIG` from `main.rs` (the provider-specific
nameserver block), byte-for-byte, including the trailing space after
`# AdGuard DNS`. -/
def ADGUARD_DNS_SERVER_CONFIG : String :=
  "\n# AdGuard DNS \n# https://adguard-dns.com/en/public-dns.html\nnameserver 94.140.14.14\nnameserver 94.149.15.15\n"

/-- Constant `HELP_MESSAGE` from `main.rs`, byte-for-byte (trailing spaces and
the `wether` typo preserved). -/
def HELP_MESSAGE : String :=
  "\nUsage: sudo cfg-adguard-dns [options...]\n\n        --activate      Activate AdGuard DNS server \n        --deactivate    Deactivate AdGuard DNS server \n        --status        Shows wether AdGuard DNS server is activated or not\n        --help          Display the current help message\n\nDisclaimer: Using this tool will restore the /etc/resolvconf/resolv.conf.d/head file to its default state.\n"

/-- The unknown-argument message printed by `eprintln!` in `main.rs`. -/
def UNKNOWN_ARG_MESSAGE : String :=
  "Unknown argument. Try `cfg-adguard-dns --help` for more information"

/-- Executable check that `p` is a leading segment of `l` (used to embed Rust's
`str::contains` substring search). -/
def isPre : List Char → List Char → Bool
  | [], _ => true
  | _ :: _, [] => false
  | a :: as, b :: bs => a == b && isPre as bs

/-- Executable substring search: does `pat` occur contiguously inside `text`?
Embeds the semantics of Rust's `String::contains`. -/
def hasSub (pat : List Char) : List Char → Bool
  | [] => isPre pat []
  | c :: rest => isPre pat (c :: rest) || hasSub pat rest

/-- Rust `s.contains(pat)` on `String`s: `pat` occurs in `s` as a contiguous
substring. -/
def strContains (s pat : String) : Bool := hasSub pat.toList s.toList

/-- Function `get_path` from `main.rs`: return the value of the environment variable
`RESOLVCONF_HEAD_PATH` when set (the `Option` argument models `env::var`:
`some v` for `Ok(value)`, `none` for `Err(_)`), else the fixed default path. -/
def get_path (env : Option String) : String :=
  match env with
  | some value => value
  | none => RESOLVCONF_HEAD_DEFAULT_PATH

/-- Function `contains_server_1_or_2_config` from `main.rs`: the decoded `nslookup`
output contains one of the two provider addresses as a substring. -/
def contains_server_1_or_2_config (output : String) : Bool :=
  strContains output DNS_SERVER_1_ADDR || strContains output DNS_SERVER_2_ADDR

/-- Content written by `write_default_template_with_adguard_dns` in `main.rs`:
`format!("{} {}", DEFAULT_TEMPLATE, ADGUARD_DNS_SERVER_CONFIG)` — note the
single space the format string inserts between the two constants. -/
def write_default_template_with_adguard_dns_content : String :=
  DEFAULT_TEMPLATE ++ " " ++ ADGUARD_DNS_SERVER_CONFIG

/-- Content written by `write_default_template` in `main.rs`. -/
def write_default_template_content : String := DEFAULT_TEMPLATE

/-- External commands the program can spawn. -/
inductive ExtCall where
  /-- Spawn of `Command::new("resolvconf").arg("-u")` — the reload command. -/
  | resolvconfU : ExtCall
  /-- Spawn of `Command::new("nslookup").arg("wikipedia.org")` — the lookup tool. -/
  | nslookupWikipedia : ExtCall
deriving DecidableEq, Repr

/-- How a run of `main` terminates. -/
inductive Outcome where
  /-- Result `Ok(())` from `main` (process exit success). -/
  | success : Outcome
  /-- Result `Err(e)` from `main` via the question-mark operator on `File::create` (fatal I/O error). -/
  | ioError : Outcome
  /-- the process aborted via an `expect` panic (spawn failure) or an
  out-of-bounds argument index. -/
  | aborted : Outcome
deriving DecidableEq, Repr

/-- The part of the external world a run interacts with. -/
structure World where
  /-- value of `RESOLVCONF_HEAD_PATH` (`none` = unset / not unicode). -/
  envVar : Option String
  /-- whether `File::create(get_path())` succeeds at the resolved path. -/
  createOk : Bool
  /-- whether spawning the `resolvconf -u` reload command succeeds. -/
  resolvconfSpawnOk : Bool
  /-- whether spawning the `nslookup wikipedia.org` lookup tool succeeds. -/
  nslookupSpawnOk : Bool
  /-- Decoding `String::from_utf8(output.stdout)` of the lookup tool: `some s` when the
  bytes decode as UTF-8 text `s`, `none` when they do not. -/
  nslookupStdout : Option String
deriving DecidableEq, Repr

/-- Observable result of one run of the program. -/
structure RunResult where
  /-- how the process terminated. -/
  outcome : Outcome
  /-- content of the target file after the run (`none` = file absent). -/
  fileContent : Option String
  /-- everything printed to stdout (`println!` appends a newline). -/
  stdout : String
  /-- everything printed to stderr (`eprintln!` appends a newline). -/
  stderr : String
  /-- external commands spawned, in order. -/
  calls : List ExtCall
deriving DecidableEq, Repr

/-- Dispatch on the first CLI argument (`&args[1][..]` in `main.rs`), for a run
whose file creation already succeeded and truncated the file to empty. -/
def dispatchVerb (w : World) (a : String) : RunResult :=
  if a == "--help" then
    ⟨.success, some "", HELP_MESSAGE ++ "\n", "", []⟩
  else if a == "--activate" || a == "activate" then
    -- activate_adguard_dns: write the extended template, then update_resolvconf
    if w.resolvconfSpawnOk then
      ⟨.success, some write_default_template_with_adguard_dns_content, "", "",
        [.resolvconfU]⟩
    else
      ⟨.aborted, some write_default_template_with_adguard_dns_content, "", "",
        [.resolvconfU]⟩
  else if a == "--deactivate" || a == "deactivate" then
    -- deactivate_adguard_dns: write the base template, then update_resolvconf
    if w.resolvconfSpawnOk then
      ⟨.success, some write_default_template_content, "", "", [.resolvconfU]⟩
    else
      ⟨.aborted, some write_default_template_content, "", "", [.resolvconfU]⟩
  else if a == "--status" || a == "status" then
    -- show_status: spawn nslookup, decode stdout, classify by substring search
    if w.nslookupSpawnOk then
      match w.nslookupStdout with
      | some out =>
        if contains_server_1_or_2_config out then
          ⟨.success, some "", "ADGUARD DNS is activated\n", "", [.nslookupWikipedia]⟩
        else
          ⟨.success, some "", "ADGUARD DNS is deactivated\n", "", [.nslookupWikipedia]⟩
      | none =>
        ⟨.success, some "", "",
          "nslookup is not installed or could not lookup wikipedia.org\n",
          [.nslookupWikipedia]⟩
    else
      ⟨.aborted, some "", "", "", [.nslookupWikipedia]⟩
  else
    ⟨.success, some "", "", UNKNOWN_ARG_MESSAGE ++ "\n", []⟩

/-- One run of `main` from `main.rs`. `fs` is the target file's content before
the run (`none` = file absent); `args` is the full OS argument list including
the program name at index 0. `File::create` runs first, unconditionally: on
success it truncates the file to empty before any argument is inspected; on
failure `?` returns the error from `main` with nothing else done. -/
def runFS (fs : Option String) (w : World) (args : List String) : RunResult :=
  if w.createOk then
    match args with
    | [_] => ⟨.success, some "", HELP_MESSAGE ++ "\n", "", []⟩
    | [] => ⟨.aborted, some "", "", "", []⟩   -- &args[1] panics: index out of bounds
    | _ :: a :: _ => dispatchVerb w a
  else
    ⟨.ioError, fs, "", "", []⟩

/-! ## Helper lemmas -/

/-- Every branch of the dispatcher leaves the target file in existence (the
file was created/truncated before dispatch, and no branch deletes it). -/
lemma dispatchVerb_fileContent_isSome (w : World) (a : String) :
    ((dispatchVerb w a).fileContent).isSome = true := by
  unfold dispatchVerb
  repeat' split
  all_goals rfl

/-- The extended file content contains itself as a substring. -/
lemma extended_contains_self :
    strContains write_default_template_with_adguard_dns_content
      (DEFAULT_TEMPLATE ++ " " ++ ADGUARD_DNS_SERVER_CONFIG) = true := by
  decide

/-- The base template contains itself as a substring. -/
lemma default_contains_self :
    strContains DEFAULT_TEMPLATE DEFAULT_TEMPLATE = true := by
  decide

/-- The base template does not contain the provider nameserver block. -/
lemma default_not_contains_adguard :
    strContains DEFAULT_TEMPLATE ADGUARD_DNS_SERVER_CONFIG = false := by
  decide

/-! ## Claim theorems -/

/-- C1 (counterexample): on a successful activate run the target file's content
is exactly `DEFAULT_TEMPLATE ++ " " ++ ADGUARD_DNS_SERVER_CONFIG` — the format
string `"{} {}"` inserts a space — and the strict concatenation
`DEFAULT_TEMPLATE ++ ADGUARD_DNS_SERVER_CONFIG` (base template directly
concatenated with the nameserver block, as the claim words it) is NOT a
contiguous substring of that content. -/
theorem activate_strict_concat_cex :
    (runFS none ⟨none, true, true, true, none⟩ ["prog", "--activate"]).outcome =
      Outcome.success ∧
    (runFS none ⟨none, true, true, true, none⟩ ["prog", "--activate"]).fileContent =
      some write_default_template_with_adguard_dns_content ∧
    strContains write_default_template_with_adguard_dns_content
      (DEFAULT_TEMPLATE ++ ADGUARD_DNS_SERVER_CONFIG) = false := by
  decide

/-- C1 (amended): after every successful activate run (`--activate` or
`activate`), the target file's content contains, as a contiguous substring, the
base template and the provider nameserver block concatenated with the single
space that the code's `format!("{} {}", ..)` inserts between them; indeed the
content equals that extended string exactly. -/
theorem activate_writes_extended_template (w : World) (fs : Option String)
    (p a : String) (r : List String)
    (hc : w.createOk = true) (hr : w.resolvconfSpawnOk = true)
    (ha : a = "--activate" ∨ a = "activate") :
    (runFS fs w (p :: a :: r)).outcome = Outcome.success ∧
    (runFS fs w (p :: a :: r)).fileContent =
      some write_default_template_with_adguard_dns_content ∧
    strContains (((runFS fs w (p :: a :: r)).fileContent).getD "")
      (DEFAULT_TEMPLATE ++ " " ++ ADGUARD_DNS_SERVER_CONFIG) = true := by
  rcases ha with h | h <;> subst h <;>
    simp [runFS, dispatchVerb, hc, hr, extended_contains_self]

/-- Witness for the amended C1 theorem at a concrete world and argument list. -/
theorem activate_writes_extended_template_witness :
    (runFS none ⟨none, true, true, true, none⟩ ["prog", "--activate"]).fileContent =
      some write_default_template_with_adguard_dns_content :=
  (activate_writes_extended_template ⟨none, true, true, true, none⟩ none
    "prog" "--activate" [] rfl rfl (Or.inl rfl)).2.1

/-- C2: whenever file creation succeeds, the target file exists after the run
for EVERY argument list (the file is created/truncated before arguments are
inspected), and for the argument lists `["prog"]` (help) and
`["prog", "bogus"]` (unknown argument) its content is empty. -/
theorem file_truncated_before_dispatch (w : World) (fs : Option String)
    (hc : w.createOk = true) :
    (∀ args : List String, (((runFS fs w args).fileContent).isSome) = true) ∧
    (∀ p : String,
      (runFS fs w [p]).fileContent = some "" ∧
      (runFS fs w [p, "bogus"]).fileContent = some "") := by
  constructor
  · intro args
    rcases args with _ | ⟨x, _ | ⟨a, r⟩⟩ <;>
      simp [runFS, hc, dispatchVerb_fileContent_isSome]
  · intro p
    constructor <;> simp [runFS, dispatchVerb, hc]

/-- Witness for C2 at a concrete world, prior content and argument lists. -/
theorem file_truncated_before_dispatch_witness :
    (runFS (some "old content") ⟨none, true, true, true, none⟩ ["prog"]).fileContent =
      some "" ∧
    (runFS (some "old content") ⟨none, true, true, true, none⟩
      ["prog", "bogus"]).fileContent = some "" :=
  (file_truncated_before_dispatch ⟨none, true, true, true, none⟩
    (some "old content") rfl).2 "prog"

/-- C3: for a status run (`--status` or `status`) whose lookup tool spawns:
if its stdout decodes as text containing `94.140.14.14` or `94.149.15.15` as a
substring, the run prints the activated verdict; if it decodes as text
containing neither, the deactivated verdict; if it does not decode as text, an
error message goes to stderr and no verdict is printed. -/
theorem show_status_classification (w : World) (fs : Option String)
    (p a : String) (r : List String)
    (hc : w.createOk = true) (hn : w.nslookupSpawnOk = true)
    (ha : a = "--status" ∨ a = "status") :
    (∀ out : String, w.nslookupStdout = some out →
      (((strContains out "94.140.14.14" || strContains out "94.149.15.15") = true →
        (runFS fs w (p :: a :: r)).stdout = "ADGUARD DNS is activated\n") ∧
       ((strContains out "94.140.14.14" || strContains out "94.149.15.15") = false →
        (runFS fs w (p :: a :: r)).stdout = "ADGUARD DNS is deactivated\n"))) ∧
    (w.nslookupStdout = none →
      (runFS fs w (p :: a :: r)).stderr =
        "nslookup is not installed or could not lookup wikipedia.org\n" ∧
      (runFS fs w (p :: a :: r)).stdout = "") := by
  constructor
  · intro out hout
    constructor <;> intro hcase <;> rcases ha with h | h <;> subst h <;>
      simp [runFS, dispatchVerb, hc, hn, hout, contains_server_1_or_2_config,
        DNS_SERVER_1_ADDR, DNS_SERVER_2_ADDR, hcase]
  · intro hnone
    rcases ha with h | h <;> subst h <;>
      simp [runFS, dispatchVerb, hc, hn, hnone]

/-- Witness for C3 at concrete worlds: lookup output containing the first
provider address yields the activated verdict. -/
theorem show_status_classification_witness :
    (runFS none ⟨none, true, true, true, some "Address: 94.140.14.14"⟩
      ["prog", "--status"]).stdout = "ADGUARD DNS is activated\n" :=
  ((show_status_classification ⟨none, true, true, true, some "Address: 94.140.14.14"⟩
      none "prog" "--status" [] rfl rfl (Or.inl rfl)).1
    "Address: 94.140.14.14" rfl).1 (by decide)

/-- C4: path resolution returns exactly the value of `RESOLVCONF_HEAD_PATH`
when it is set (any value, including the empty string, counts as set), and
returns the default path `/etc/resolvconf/resolv.conf.d/head` byte-for-byte
when it is unset. -/
theorem get_path_env_override :
    (∀ v : String, get_path (some v) = v) ∧
    get_path none = "/etc/resolvconf/resolv.conf.d/head" :=
  ⟨fun _ => rfl, rfl⟩

/-- C5: after every successful deactivate run (`--deactivate` or
`deactivate`), the target file's content contains the base template as a
substring and does not contain the provider nameserver block as a substring. -/
theorem deactivate_template_containment (w : World) (fs : Option String)
    (p a : String) (r : List String)
    (hc : w.createOk = true) (hr : w.resolvconfSpawnOk = true)
    (ha : a = "--deactivate" ∨ a = "deactivate") :
    (runFS fs w (p :: a :: r)).outcome = Outcome.success ∧
    strContains (((runFS fs w (p :: a :: r)).fileContent).getD "")
      DEFAULT_TEMPLATE = true ∧
    strContains (((runFS fs w (p :: a :: r)).fileContent).getD "")
      ADGUARD_DNS_SERVER_CONFIG = false := by
  rcases ha with h | h <;> subst h <;>
    simp [runFS, dispatchVerb, write_default_template_content, hc, hr,
      default_contains_self, default_not_contains_adguard]

/-- Witness for C5 at a concrete world and argument list. -/
theorem deactivate_template_containment_witness :
    strContains
      (((runFS none ⟨none, true, true, true, none⟩
        ["prog", "deactivate"]).fileContent).getD "")
      ADGUARD_DNS_SERVER_CONFIG = false :=
  (deactivate_template_containment ⟨none, true, true, true, none⟩ none
    "prog" "deactivate" [] rfl rfl (Or.inr rfl)).2.2

/-- C6: running the activate verb twice in two successive separate runs (the
second run starting from the file content the first run left behind) yields
the same file content as a single run — the write is an overwrite across runs,
not an append, because each run re-creates/truncates the file. -/
theorem activate_idempotent_across_runs (w : World) (fs : Option String)
    (p a : String) (r : List String)
    (hc : w.createOk = true) (hr : w.resolvconfSpawnOk = true)
    (ha : a = "--activate" ∨ a = "activate") :
    (runFS ((runFS fs w (p :: a :: r)).fileContent) w (p :: a :: r)).fileContent =
      (runFS fs w (p :: a :: r)).fileContent ∧
    (runFS fs w (p :: a :: r)).fileContent =
      some write_default_template_with_adguard_dns_content := by
  rcases ha with h | h <;> subst h <;> simp [runFS, dispatchVerb, hc, hr]

/-- Witness for C6 at a concrete world and argument list. -/
theorem activate_idempotent_across_runs_witness :
    (runFS ((runFS none ⟨none, true, true, true, none⟩
        ["prog", "activate"]).fileContent) ⟨none, true, true, true, none⟩
      ["prog", "activate"]).fileContent =
      (runFS none ⟨none, true, true, true, none⟩ ["prog", "activate"]).fileContent :=
  (activate_idempotent_across_runs ⟨none, true, true, true, none⟩ none
    "prog" "activate" [] rfl rfl (Or.inr rfl)).1

/-- C7: for every first argument that is none of the seven recognized verbs,
the run writes exactly the unknown-argument message (plus the `eprintln!`
newline) to stderr, exits with success, prints nothing to stdout, spawns no
external command, and leaves the file truncated to empty. -/
theorem unknown_argument_behavior (w : World) (fs : Option String)
    (p a : String) (r : List String)
    (hc : w.createOk = true)
    (h1 : a ≠ "--help") (h2 : a ≠ "--activate") (h3 : a ≠ "activate")
    (h4 : a ≠ "--deactivate") (h5 : a ≠ "deactivate")
    (h6 : a ≠ "--status") (h7 : a ≠ "status") :
    runFS fs w (p :: a :: r) =
      ⟨Outcome.success, some "", "", UNKNOWN_ARG_MESSAGE ++ "\n", []⟩ := by
  simp [runFS, dispatchVerb, hc, h1, h2, h3, h4, h5, h6, h7]

/-- Witness for C7 at the concrete unknown argument `bogus`. -/
theorem unknown_argument_behavior_witness :
    runFS none ⟨none, true, true, true, none⟩ ["prog", "bogus"] =
      ⟨Outcome.success, some "", "", UNKNOWN_ARG_MESSAGE ++ "\n", []⟩ :=
  unknown_argument_behavior ⟨none, true, true, true, none⟩ none "prog" "bogus" []
    rfl (by decide) (by decide) (by decide) (by decide) (by decide)
    (by decide) (by decide)

/-- C8: failure to create the target file makes the run end in the fatal I/O
error with nothing else done (no output, no spawn, file content unchanged);
failure to spawn the reload command aborts an activate/deactivate run; failure
to spawn the lookup tool aborts a status run with no verdict printed. -/
theorem fatal_error_paths (w : World) (fs : Option String)
    (p a : String) (r : List String) :
    (w.createOk = false →
      ∀ args : List String,
        runFS fs w args = ⟨Outcome.ioError, fs, "", "", []⟩) ∧
    (w.createOk = true → w.resolvconfSpawnOk = false →
      (a = "--activate" ∨ a = "activate" ∨ a = "--deactivate" ∨ a = "deactivate") →
      (runFS fs w (p :: a :: r)).outcome = Outcome.aborted) ∧
    (w.createOk = true → w.nslookupSpawnOk = false →
      (a = "--status" ∨ a = "status") →
      (runFS fs w (p :: a :: r)).outcome = Outcome.aborted ∧
      (runFS fs w (p :: a :: r)).stdout = "") := by
  refine ⟨?_, ?_, ?_⟩
  · intro h args
    simp [runFS, h]
  · intro hc hr ha
    rcases ha with h | h | h | h <;> subst h <;>
      simp [runFS, dispatchVerb, hc, hr]
  · intro hc hn ha
    rcases ha with h | h <;> subst h <;>
      simp [runFS, dispatchVerb, hc, hn]

/-- Witness for C8 at three concrete worlds: failed file creation, failed
reload spawn on activate, failed lookup spawn on status. -/
theorem fatal_error_paths_witness :
    runFS (some "prior") ⟨none, false, true, true, none⟩ ["prog", "--activate"] =
      ⟨Outcome.ioError, some "prior", "", "", []⟩ ∧
    (runFS none ⟨none, true, false, true, none⟩ ["prog", "--activate"]).outcome =
      Outcome.aborted ∧
    (runFS none ⟨none, true, true, false, none⟩ ["prog", "--status"]).outcome =
      Outcome.aborted :=
  ⟨(fatal_error_paths ⟨none, false, true, true, none⟩ (some "prior")
      "prog" "--activate" []).1 rfl ["prog", "--activate"],
   (fatal_error_paths ⟨none, true, false, true, none⟩ none
      "prog" "--activate" []).2.1 rfl rfl (Or.inl rfl),
   ((fatal_error_paths ⟨none, true, true, false, none⟩ none
      "prog" "--status" []).2.2 rfl rfl (Or.inl rfl)).1⟩

/-- C9: the whole observable behavior of a run depends only on the element at
index 1 of the argument list: for any two argument lists of length at least
two with equal element at index 1, and the same world and prior file content,
the two runs produce identical results (the program name and all arguments
beyond the first are ignored). -/
theorem behavior_depends_only_on_arg1 (w : World) (fs : Option String)
    (p q b : String) (r s : List String) :
    runFS fs w (p :: b :: r) = runFS fs w (q :: b :: s) := by
  cases h : w.createOk <;> simp [runFS, h]

/-- C10: after every successful deactivate run, the target file's content
equals the base template exactly, byte-for-byte. -/
theorem deactivate_exact_content (w : World) (fs : Option String)
    (p a : String) (r : List String)
    (hc : w.createOk = true) (hr : w.resolvconfSpawnOk = true)
    (ha : a = "--deactivate" ∨ a = "deactivate") :
    (runFS fs w (p :: a :: r)).fileContent = some DEFAULT_TEMPLATE ∧
    (runFS fs w (p :: a :: r)).outcome = Outcome.success := by
  rcases ha with h | h <;> subst h <;>
    simp [runFS, dispatchVerb, write_default_template_content, hc, hr]

/-- Witness for C10 at a concrete world and argument list. -/
theorem deactivate_exact_content_witness :
    (runFS none ⟨none, true, true, true, none⟩
      ["prog", "--deactivate"]).fileContent = some DEFAULT_TEMPLATE :=
  (deactivate_exact_content ⟨none, true, true, true, none⟩ none
    "prog" "--deactivate" [] rfl rfl (Or.inl rfl)).1

end Rslvconf
